import Mathlib

/-!
Verification of the accounting-period calculator and aggregation pipeline of
`budget_tracker.py` (a single-file personal finance tracker).

The embedding follows the source script:
* dates are calendar dates; `dateutil.relativedelta.relativedelta(months=±1)`
  shifts the month with year carry and clamps the day to the target month's
  length;
* pandas coercion (`pd.to_numeric` / `pd.to_datetime` with `errors="coerce"`
  followed by `dropna`) is modelled by `Option`-valued raw fields: `none`
  stands for a NaN/NaT parse result, and preprocessing keeps exactly the rows
  whose required fields are all `some`;
* monetary values are modelled as exact integers (the script uses float64;
  every property below is about sums, differences and sign tests, which the
  idealisation preserves);
* `groupby(...)["..."].sum()` is modelled by `groupbySum`, which lists the
  distinct keys in sorted order (pandas sorts group keys) with the sum of the
  grouped values;
* `pd.merge(..., how="left").fillna(0)` against a one-column frame is modelled
  by a lookup with default 0.
-/

namespace BudgetTracker

/-- A timezone-naive calendar date, as produced by `datetime.today().date()`
and by `pd.to_datetime` on the sheet's date strings. -/
structure Date where
  year : Nat
  month : Nat
  day : Nat
deriving DecidableEq, Repr

/-- Gregorian leap-year rule, as used by Python's `datetime`/`dateutil`. -/
def isLeap (y : Nat) : Bool :=
  (y % 4 == 0 && y % 100 != 0) || y % 400 == 0

/-- Number of days in a month of a given year (Gregorian calendar). -/
def daysInMonth (y m : Nat) : Nat :=
  if m = 2 then (if isLeap y then 29 else 28)
  else if m = 4 ∨ m = 6 ∨ m = 9 ∨ m = 11 then 30
  else 31

/-- Validity of a calendar date (proleptic Gregorian, positive year). -/
def Date.valid (d : Date) : Prop :=
  1 ≤ d.year ∧ 1 ≤ d.month ∧ d.month ≤ 12 ∧ 1 ≤ d.day ∧ d.day ≤ daysInMonth d.year d.month

instance (d : Date) : Decidable d.valid := by
  unfold Date.valid; infer_instance

/-- `today.replace(day=n)` from Python's `datetime.date`. -/
def Date.replaceDay (d : Date) (n : Nat) : Date :=
  ⟨d.year, d.month, n⟩

/-- `d + relativedelta(months=1)`: advance the month (with year carry) and
clamp the day to the length of the target month, as `dateutil` does. -/
def Date.addOneMonth (d : Date) : Date :=
  let y := if d.month = 12 then d.year + 1 else d.year
  let m := if d.month = 12 then 1 else d.month + 1
  ⟨y, m, min d.day (daysInMonth y m)⟩

/-- `d - relativedelta(months=1)`: step the month back (with year borrow) and
clamp the day to the length of the target month, as `dateutil` does. -/
def Date.subOneMonth (d : Date) : Date :=
  let y := if d.month = 1 then d.year - 1 else d.year
  let m := if d.month = 1 then 12 else d.month - 1
  ⟨y, m, min d.day (daysInMonth y m)⟩

/-- Chronological sort key of a date; for valid dates the induced order is
the calendar order used by pandas datetime comparisons. -/
def Date.key (d : Date) : Nat :=
  d.year * 10000 + d.month * 100 + d.day

/-- Boolean date comparison `a <= b` (chronological). -/
def Date.leb (a b : Date) : Bool :=
  decide (a.key ≤ b.key)

/-- Boolean date comparison `a < b` (chronological). -/
def Date.ltb (a b : Date) : Bool :=
  decide (a.key < b.key)

/-- The period computation at module top level of `budget_tracker.py`:
if `today.day >= 28` then `period_start = today.replace(day=28)` and
`period_end = period_start + relativedelta(months=1)`, else
`period_end = today.replace(day=28)` and
`period_start = period_end - relativedelta(months=1)`. -/
def currentPeriod (today : Date) : Date × Date :=
  if 28 ≤ today.day then
    let s := today.replaceDay 28
    (s, s.addOneMonth)
  else
    let e := today.replaceDay 28
    (e.subOneMonth, e)

/-- Modelled from the spec's words for comparison: "plus one calendar month"
on a day-28 date, which the spec asserts never needs day clamping. -/
def specPlusOneMonth (d : Date) : Date :=
  if d.month = 12 then ⟨d.year + 1, 1, d.day⟩ else ⟨d.year, d.month + 1, d.day⟩

/-- Modelled from the spec's words for comparison: "minus one calendar month"
on a day-28 date, which the spec asserts never needs day clamping. -/
def specMinusOneMonth (d : Date) : Date :=
  if d.month = 1 then ⟨d.year - 1, 12, d.day⟩ else ⟨d.year, d.month - 1, d.day⟩

/-- A raw row of the Expenses worksheet after the column-wise pandas parses.
Each coercible field carries its parse result: `none` models the NaN/NaT that
`pd.to_numeric(..., errors="coerce")` / `pd.to_datetime(..., errors="coerce")`
produce on malformed input. Timestamps are modelled by their epoch value. -/
structure ExpenseRaw where
  timestamp : Option Nat
  user : String
  purchase_date : Option Date
  item : String
  amount : Option Int
  category : String
  method : String
deriving DecidableEq, Repr

/-- A fully coerced expense row, as kept by the `dropna` calls. -/
structure ExpenseRow where
  timestamp : Nat
  user : String
  purchase_date : Date
  item : String
  amount : Int
  category : String
  method : String
deriving DecidableEq, Repr

/-- The net effect of lines 62-67: a row survives `dropna(subset=["Amount"])`
and `dropna(subset=["Purchase Date", "Timestamp"])` exactly when all three
coercions produced a value. -/
def coerceExpense (r : ExpenseRaw) : Option ExpenseRow :=
  match r.amount, r.purchase_date, r.timestamp with
  | some a, some d, some t => some ⟨t, r.user, d, r.item, a, r.category, r.method⟩
  | _, _, _ => none

/-- `expenses_df` after preprocessing: the coerced rows, in store read order. -/
def preprocessExpenses (rows : List ExpenseRaw) : List ExpenseRow :=
  rows.filterMap coerceExpense

/-- A raw row of the Income worksheet; only `Income Amount` and `Date` are
coerced by the script (lines 69-72) — the income timestamp is left as text. -/
structure IncomeRaw where
  timestamp : String
  user : String
  date : Option Date
  source : String
  description : String
  amount : Option Int
deriving DecidableEq, Repr

/-- A fully coerced income row. -/
structure IncomeRow where
  timestamp : String
  user : String
  date : Date
  source : String
  description : String
  amount : Int
deriving DecidableEq, Repr

/-- Lines 69-72: a row survives `dropna(subset=["Date", "Income Amount"])`
exactly when both coercions produced a value. -/
def coerceIncome (r : IncomeRaw) : Option IncomeRow :=
  match r.amount, r.date with
  | some a, some d => some ⟨r.timestamp, r.user, d, r.source, r.description, a⟩
  | _, _ => none

/-- `income_df` after preprocessing: the coerced rows, in store read order. -/
def preprocessIncome (rows : List IncomeRaw) : List IncomeRow :=
  rows.filterMap coerceIncome

/-- Lines 86-89: `expenses_period`, rows of the preprocessed frame whose
purchase date satisfies `period_start <= d < period_end` for the boundaries
computed from today by `currentPeriod`. -/
def expensesPeriod (today : Date) (raw : List ExpenseRaw) : List ExpenseRow :=
  (preprocessExpenses raw).filter fun r =>
    Date.leb (currentPeriod today).1 r.purchase_date &&
    Date.ltb r.purchase_date (currentPeriod today).2

/-- Lines 91-94: `income_period`, the same half-open filter on the income
frame's `Date` column, with the identical period boundaries. -/
def incomePeriod (today : Date) (raw : List IncomeRaw) : List IncomeRow :=
  (preprocessIncome raw).filter fun r =>
    Date.leb (currentPeriod today).1 r.date &&
    Date.ltb r.date (currentPeriod today).2

/-- Sum of the `Amount` column of an expense frame (`["Amount"].sum()`,
which is 0 on an empty frame). -/
def totalAmount (rows : List ExpenseRow) : Int :=
  (rows.map (fun r => r.amount)).sum

/-- Sum of the `Income Amount` column of an income frame. -/
def totalIncome (rows : List IncomeRow) : Int :=
  (rows.map (fun r => r.amount)).sum

/-- Insert a string into a sorted list of strings (ascending). -/
def insertSorted (s : String) : List String → List String
  | [] => [s]
  | t :: ts => if (compare s t).isLE then s :: t :: ts else t :: insertSorted s ts

/-- Sort a list of strings ascending (pandas `groupby` sorts group keys). -/
def sortStrings : List String → List String
  | [] => []
  | s :: ss => insertSorted s (sortStrings ss)

/-- `df.groupby(key)[val].sum().reset_index()`: one row per distinct key, in
ascending key order, carrying the sum of the grouped values. -/
def groupbySum (pairs : List (String × Int)) : List (String × Int) :=
  (sortStrings (pairs.map Prod.fst).dedup).map
    (fun k => (k, ((pairs.filter (fun p => p.1 == k)).map Prod.snd).sum))

/-- `target_categories` of line 123: the canonical category list of the
category-spending report. -/
def target_categories : List String := ["Bills", "Food & Drink", "Transport"]

/-- Lines 122-127: the Monthly Category Spending table. Rendering is guarded
by `if not expenses_period.empty`, so an empty period slice produces no table
(`none`); otherwise rows are restricted to the target categories, grouped and
summed, and left-merged onto the full category list with missing sums filled
with 0. -/
def categorySpendingReport (periodRows : List ExpenseRow) : Option (List (String × Int)) :=
  if periodRows.isEmpty then none
  else
    let filtered := periodRows.filter fun r => target_categories.contains r.category
    let grouped := groupbySum (filtered.map fun r => (r.category, r.amount))
    some (target_categories.map fun c => (c, (List.lookup c grouped).getD 0))

/-- Lines 152-155: the Total Spending Per User table, `groupby("User")` sum,
also guarded by `if not expenses_period.empty`. -/
def userSpendingReport (periodRows : List ExpenseRow) : Option (List (String × Int)) :=
  if periodRows.isEmpty then none
  else some (groupbySum (periodRows.map fun r => (r.user, r.amount)))

/-- A row of the Budget worksheet: the category, per-user allocations, and the
`Total Budget` cell after `pd.to_numeric(..., errors="coerce")` (line 249),
where `none` models a NaN coercion result. -/
structure BudgetRow where
  category : String
  mikael : Int
  josephine : Int
  total_budget : Option Int
deriving DecidableEq, Repr

/-- A row of `df_merged` (lines 247-250): the budget row joined with the
actual period spend and the computed `Remaining` column (NaN when the budget
cell failed coercion). -/
structure MergedRow where
  category : String
  mikael : Int
  josephine : Int
  total_budget : Option Int
  amount : Int
  remaining : Option Int
deriving DecidableEq, Repr

/-- `df_sum` looked up for one category: the left merge of the budget table
with the per-category sums, `fillna(0)` for categories with no spend. -/
def spentInCategory (periodRows : List ExpenseRow) (c : String) : Int :=
  (List.lookup c (groupbySum (periodRows.map fun r => (r.category, r.amount)))).getD 0

/-- Lines 247-250: `df_merged` with `Remaining = Total Budget - Amount`. -/
def mergeBudget (budget : List BudgetRow) (periodRows : List ExpenseRow) : List MergedRow :=
  budget.map fun b =>
    ⟨b.category, b.mikael, b.josephine, b.total_budget,
      spentInCategory periodRows b.category,
      b.total_budget.map (fun tb => tb - spentInCategory periodRows b.category)⟩

/-- Line 246: the Budget tab renders only when both the budget table and the
period slice are non-empty. -/
def budgetReport (budget : List BudgetRow) (periodRows : List ExpenseRow) : Option (List MergedRow) :=
  if budget.isEmpty || periodRows.isEmpty then none
  else some (mergeBudget budget periodRows)

/-- Insert thousands separators into a digit list given least-significant
first; helper for the `Python` format `f"{x:,.0f}"` on integral values. -/
def groupRev : Nat → List Char → List Char
  | _, [] => []
  | k, c :: cs =>
    if k ≠ 0 ∧ k % 3 = 0 then ',' :: c :: groupRev (k + 1) cs
    else c :: groupRev (k + 1) cs

/-- The comma-grouped rendering of a non-negative integral value, as produced
by `f"{x:,.0f}"`. -/
def fmtThousands (x : Int) : String :=
  ⟨(groupRev 0 (toString x.natAbs).toList.reverse).reverse⟩

/-- Line 255, the display lambda `f"{x:,.0f}" if x >= 0 else "0"`: any
negative (or NaN, for which the comparison is false) cell renders as "0". -/
def displayCell (v : Option Int) : String :=
  match v with
  | none => "0"
  | some x => if 0 ≤ x then fmtThousands x else "0"

/-- Lines 253-255: the displayed row of `display_df`, every numeric column
passed through the display lambda. -/
def displayMerged (m : MergedRow) : List String :=
  [m.category, displayCell (some m.mikael), displayCell (some m.josephine),
   displayCell m.total_budget, displayCell (some m.amount), displayCell m.remaining]

/-- Lines 260-268: the budget chart bar color,
`alt.condition(Amount > Total Budget, red, green)`. -/
def budgetBarColor (m : MergedRow) : String :=
  match m.total_budget with
  | some tb => if tb < m.amount then "red" else "green"
  | none => "green"

/-- A displayed row of the Recent Transactions table (`Timestamp` column
dropped, line 191). -/
structure DisplayRow where
  user : String
  purchase_date : Date
  item : String
  amount : Int
  category : String
  method : String
deriving DecidableEq, Repr

/-- `drop(columns=["Timestamp"])` on one row. -/
def stripTimestamp (r : ExpenseRow) : DisplayRow :=
  ⟨r.user, r.purchase_date, r.item, r.amount, r.category, r.method⟩

/-- Lines 188-191: the Recent Transactions view, `expenses_df.tail(25)` (the
last 25 rows of the coerced frame in store read order) with the `Timestamp`
column dropped. -/
def recentTransactions (rows : List ExpenseRow) : List DisplayRow :=
  (rows.drop (rows.length - 25)).map stripTimestamp

/-- A row appended to the Expenses worksheet by the expense form. -/
structure ExpenseEntry where
  timestamp : Nat
  user : String
  purchase_date : Date
  item : String
  amount : Int
  category : String
  method : String
deriving DecidableEq, Repr

/-- Lines 113-116: the expense form appends its row only when
`submit and item and amount > 0`, i.e. the description is non-empty (Python
string truthiness) and the amount is positive; otherwise the store is left
untouched. -/
def expenseFormSubmit (store : List ExpenseEntry) (now : Nat) (user : String)
    (purchase_date : Date) (item : String) (amount : Int)
    (category mth : String) : List ExpenseEntry :=
  if item ≠ "" ∧ 0 < amount then
    store ++ [⟨now, user, purchase_date, item, amount, category, mth⟩]
  else store

/-- A row appended to the Income worksheet by the income form. -/
structure IncomeEntry where
  timestamp : Nat
  user : String
  date : Date
  source : String
  description : String
  amount : Int
deriving DecidableEq, Repr

/-- Lines 205-208: the income form appends its row whenever
`income_submit and income_amt > 0` — the description is not checked. -/
def incomeFormSubmit (store : List IncomeEntry) (now : Nat) (user : String)
    (date : Date) (source description : String) (amount : Int) : List IncomeEntry :=
  if 0 < amount then store ++ [⟨now, user, date, source, description, amount⟩]
  else store

/-- A raw expense row passes all three coercions of lines 62-67. -/
def rowCoercible (r : ExpenseRaw) : Bool :=
  r.amount.isSome && r.purchase_date.isSome && r.timestamp.isSome


/-- A concrete five-row raw table: rows 1, 2 and 4 fully coercible, row 3 with
a non-numeric `Amount`, row 5 with a valid amount and purchase date but an
unparseable `Timestamp`. -/
def mixedRawTable : List ExpenseRaw :=
  [⟨some 1, "Mikael", some ⟨2024, 3, 1⟩, "r1", some 10, "Bills", "CC"⟩,
   ⟨some 2, "Mikael", some ⟨2024, 3, 2⟩, "r2", some 20, "Bills", "CC"⟩,
   ⟨some 3, "Mikael", some ⟨2024, 3, 3⟩, "r3", none, "Bills", "CC"⟩,
   ⟨some 4, "Mikael", some ⟨2024, 3, 4⟩, "r4", some 30, "Bills", "CC"⟩,
   ⟨none, "Mikael", some ⟨2024, 3, 5⟩, "r5", some 40, "Bills", "CC"⟩]


theorem daysInMonth_ge_28 (y m : Nat) : 28 ≤ daysInMonth y m := by
  unfold daysInMonth
  split
  · split <;> omega
  · split <;> omega

theorem addOneMonth_day28 (d : Date) (h : d.day = 28) :
    d.addOneMonth = specPlusOneMonth d := by
  unfold Date.addOneMonth specPlusOneMonth
  have h12 : 28 ≤ daysInMonth (d.year + 1) 1 := daysInMonth_ge_28 _ _
  have h1 : 28 ≤ daysInMonth d.year (d.month + 1) := daysInMonth_ge_28 _ _
  by_cases hm : d.month = 12 <;> simp [hm, h] <;> omega

theorem subOneMonth_day28 (d : Date) (h : d.day = 28) :
    d.subOneMonth = specMinusOneMonth d := by
  unfold Date.subOneMonth specMinusOneMonth
  have h12 : 28 ≤ daysInMonth (d.year - 1) 12 := daysInMonth_ge_28 _ _
  have h1 : 28 ≤ daysInMonth d.year (d.month - 1) := daysInMonth_ge_28 _ _
  by_cases hm : d.month = 1 <;> simp [hm, h] <;> omega

theorem currentPeriod_start_lt_end (d : Date) (hv : d.valid) :
    ((currentPeriod d).1).key < ((currentPeriod d).2).key := by
  obtain ⟨hy, hm1, hm2, hd1, hd2⟩ := hv
  unfold currentPeriod Date.replaceDay Date.addOneMonth Date.subOneMonth Date.key
  by_cases h : 28 ≤ d.day <;> simp only [h, if_true, if_false, reduceIte]
  · by_cases hm : d.month = 12 <;> simp only [hm, if_true, if_false, reduceIte]
    · have := daysInMonth_ge_28 (d.year + 1) 1
      omega
    · have := daysInMonth_ge_28 d.year (d.month + 1)
      omega
  · by_cases hm : d.month = 1 <;> simp only [hm, if_true, if_false, reduceIte]
    · have := daysInMonth_ge_28 (d.year - 1) 12
      omega
    · have := daysInMonth_ge_28 d.year (d.month - 1)
      omega

/-- C1: for every valid date `d`, the period calculator returns: if
`d.day >= 28` then `start = d` with day set to 28 and `end = start` plus one
calendar month (which is again a valid day-28 date — month-overflow-safe);
otherwise `end = d` with day set to 28 and `start = end` minus one calendar
month (a day-28 date). In particular, for `d.day = 28` the period starts at
`d` itself (rolls forward, not backward). -/
theorem currentPeriod_matches_spec (d : Date) (hv : d.valid) :
    (28 ≤ d.day →
      (currentPeriod d).1 = d.replaceDay 28 ∧
      (currentPeriod d).2 = specPlusOneMonth (d.replaceDay 28) ∧
      (currentPeriod d).2.day = 28 ∧ (currentPeriod d).2.valid) ∧
    (d.day < 28 →
      (currentPeriod d).2 = d.replaceDay 28 ∧
      (currentPeriod d).1 = specMinusOneMonth (d.replaceDay 28) ∧
      (currentPeriod d).1.day = 28) ∧
    (d.day = 28 → (currentPeriod d).1 = d) := by
  obtain ⟨hy, hm1, hm2, hd1, hd2⟩ := hv
  refine ⟨fun h => ?_, fun h => ?_, fun h => ?_⟩
  · have hcp : currentPeriod d = (d.replaceDay 28, (d.replaceDay 28).addOneMonth) := by
      simp [currentPeriod, h]
    have hspec := addOneMonth_day28 (d.replaceDay 28) rfl
    refine ⟨by rw [hcp], by rw [hcp, hspec], ?_, ?_⟩
    · rw [hcp, hspec]
      unfold specPlusOneMonth Date.replaceDay
      by_cases hm : d.month = 12 <;> simp [hm]
    · rw [hcp, hspec]
      unfold specPlusOneMonth Date.replaceDay Date.valid
      by_cases hm : d.month = 12 <;> simp only [hm, if_true, if_false, reduceIte]
      · exact ⟨by omega, by omega, by omega, by omega, daysInMonth_ge_28 _ _⟩
      · exact ⟨by omega, by omega, by omega, by omega, daysInMonth_ge_28 _ _⟩
  · have hcp : currentPeriod d = ((d.replaceDay 28).subOneMonth, d.replaceDay 28) := by
      simp [currentPeriod, show ¬ 28 ≤ d.day by omega]
    have hspec := subOneMonth_day28 (d.replaceDay 28) rfl
    refine ⟨by rw [hcp], by rw [hcp, hspec], ?_⟩
    rw [hcp, hspec]
    unfold specMinusOneMonth Date.replaceDay
    by_cases hm : d.month = 1 <;> simp [hm]
  · have hcp : currentPeriod d = (d.replaceDay 28, (d.replaceDay 28).addOneMonth) := by
      simp [currentPeriod, show 28 ≤ d.day by omega]
    rw [hcp]
    cases d
    simp_all [Date.replaceDay]

/-- Witness for C1 at the concrete date 2024-02-28: the period starts at the
date itself and its end is the valid day-28 date one month later. -/
theorem currentPeriod_matches_spec_witness :
    (⟨2024, 2, 28⟩ : Date).valid ∧ 28 ≤ (⟨2024, 2, 28⟩ : Date).day ∧
    (currentPeriod ⟨2024, 2, 28⟩).1 = ⟨2024, 2, 28⟩ ∧
    (currentPeriod ⟨2024, 2, 28⟩).2.day = 28 ∧
    (currentPeriod ⟨2024, 2, 28⟩).2.valid :=
  ⟨by decide, by decide,
    (currentPeriod_matches_spec ⟨2024, 2, 28⟩ (by decide)).2.2 rfl,
    ((currentPeriod_matches_spec ⟨2024, 2, 28⟩ (by decide)).1 (by decide)).2.2.1,
    ((currentPeriod_matches_spec ⟨2024, 2, 28⟩ (by decide)).1 (by decide)).2.2.2⟩

/-- C2: the period filter has half-open semantics — a coerced row is retained
exactly when `start <= purchase_date < end`; a retained-candidate row dated
exactly at `start` is included, and a row dated exactly at `end` is excluded. -/
theorem expensesPeriod_halfOpen (today : Date) (hv : today.valid)
    (raw : List ExpenseRaw) (x : ExpenseRow) :
    (x ∈ expensesPeriod today raw ↔
      x ∈ preprocessExpenses raw ∧
      (currentPeriod today).1.key ≤ x.purchase_date.key ∧
      x.purchase_date.key < (currentPeriod today).2.key) ∧
    (x ∈ preprocessExpenses raw → x.purchase_date = (currentPeriod today).1 →
      x ∈ expensesPeriod today raw) ∧
    (x.purchase_date = (currentPeriod today).2 → x ∉ expensesPeriod today raw) := by
  have hiff : x ∈ expensesPeriod today raw ↔
      x ∈ preprocessExpenses raw ∧
      (currentPeriod today).1.key ≤ x.purchase_date.key ∧
      x.purchase_date.key < (currentPeriod today).2.key := by
    unfold expensesPeriod
    rw [List.mem_filter]
    simp [Date.leb, Date.ltb]
  refine ⟨hiff, fun hx hs => ?_, fun he hmem => ?_⟩
  · exact hiff.mpr ⟨hx, by rw [hs], by rw [hs]; exact currentPeriod_start_lt_end today hv⟩
  · have hlt := (hiff.mp hmem).2.2
    rw [he] at hlt
    omega

/-- Witness for C2 with today = 2024-03-15 (period [2024-02-28, 2024-03-28)):
a row dated 2024-02-28 is included and a row dated 2024-03-28 is excluded. -/
theorem expensesPeriod_halfOpen_witness :
    (⟨2024, 3, 15⟩ : Date).valid ∧
    (⟨100, "Mikael", ⟨2024, 2, 28⟩, "rent", 500, "Bills", "CC"⟩ : ExpenseRow) ∈
      expensesPeriod ⟨2024, 3, 15⟩
        [⟨some 100, "Mikael", some ⟨2024, 2, 28⟩, "rent", some 500, "Bills", "CC"⟩,
         ⟨some 200, "Josephine", some ⟨2024, 3, 28⟩, "rent", some 500, "Bills", "CC"⟩] ∧
    (⟨200, "Josephine", ⟨2024, 3, 28⟩, "rent", 500, "Bills", "CC"⟩ : ExpenseRow) ∉
      expensesPeriod ⟨2024, 3, 15⟩
        [⟨some 100, "Mikael", some ⟨2024, 2, 28⟩, "rent", some 500, "Bills", "CC"⟩,
         ⟨some 200, "Josephine", some ⟨2024, 3, 28⟩, "rent", some 500, "Bills", "CC"⟩] :=
  ⟨by decide,
    (expensesPeriod_halfOpen ⟨2024, 3, 15⟩ (by decide) _
        ⟨100, "Mikael", ⟨2024, 2, 28⟩, "rent", 500, "Bills", "CC"⟩).2.1
      (by decide) (by decide),
    (expensesPeriod_halfOpen ⟨2024, 3, 15⟩ (by decide) _
        ⟨200, "Josephine", ⟨2024, 3, 28⟩, "rent", 500, "Bills", "CC"⟩).2.2
      (by decide)⟩

/-- C10: income rows go through the same pipeline shape as expenses — numeric
coercion with row drop on failure (on `Income Amount` and `Date`), then the
same half-open `[start, end)` filter using the identical `currentPeriod`
boundaries computed from today — and the income-vs-expense comparison sums
evaluate to 0 (not an error) on an empty period slice. -/
theorem incomePipeline_same_period :
    (∀ (today : Date) (raw : List IncomeRaw) (x : IncomeRow),
      x ∈ incomePeriod today raw ↔
        x ∈ preprocessIncome raw ∧
        (currentPeriod today).1.key ≤ x.date.key ∧
        x.date.key < (currentPeriod today).2.key) ∧
    (∀ r : IncomeRaw, (coerceIncome r).isSome ↔ r.amount.isSome ∧ r.date.isSome) ∧
    totalIncome [] = 0 ∧ totalAmount [] = 0 := by
  refine ⟨fun today raw x => ?_, fun r => ?_, rfl, rfl⟩
  · unfold incomePeriod
    rw [List.mem_filter]
    simp [Date.leb, Date.ltb]
  · unfold coerceIncome
    cases ha : r.amount <;> cases hd : r.date <;> simp [ha, hd]

/-- C9 (counterexample): on `mixedRawTable` the aggregated total is 60, while
the sum over all rows with a coercible amount and purchase date (the claim's
valid rows) is 100 — row 5, valid by amount and date, is dropped because of
its unparseable timestamp. -/
theorem aggregation_drops_valid_dated_row :
    totalAmount (preprocessExpenses mixedRawTable) = 60 ∧
    ((mixedRawTable.filter fun r => r.amount.isSome && r.purchase_date.isSome).filterMap
        fun r => r.amount).sum = 100 ∧
    totalAmount (preprocessExpenses mixedRawTable) ≠
      ((mixedRawTable.filter fun r => r.amount.isSome && r.purchase_date.isSome).filterMap
          fun r => r.amount).sum := by
  decide

/-- C9 (amended): the aggregation is total (never aborts) and its input is
exactly the rows passing all three coercions (amount, purchase date and
timestamp): the amounts of the preprocessed frame are exactly the amounts of
the coercible rows, and the aggregated total is their sum — contributions of
rows failing a coercion are excluded, all other rows are included. -/
theorem preprocess_keeps_exactly_coercible (rows : List ExpenseRaw) :
    (preprocessExpenses rows).map (fun r => r.amount) =
      ((rows.filter rowCoercible).filterMap fun r => r.amount) ∧
    totalAmount (preprocessExpenses rows) =
      ((rows.filter rowCoercible).filterMap fun r => r.amount).sum := by
  have hmap : (preprocessExpenses rows).map (fun r => r.amount) =
      ((rows.filter rowCoercible).filterMap fun r => r.amount) := by
    induction rows with
    | nil => rfl
    | cons r rs ih =>
      unfold preprocessExpenses at ih ⊢
      cases ha : r.amount <;> cases hd : r.purchase_date <;> cases ht : r.timestamp <;>
        simp [coerceExpense, rowCoercible, ha, hd, ht,
          List.filterMap_cons, List.filter_cons, ih]
  exact ⟨hmap, by unfold totalAmount; rw [hmap]⟩

theorem lookup_map_self (l : List String) (f : String → Int) (c : String) :
    List.lookup c (l.map fun k => (k, f k)) = if c ∈ l then some (f c) else none := by
  induction l with
  | nil => simp
  | cons h t ih =>
    simp only [List.map_cons, List.lookup_cons]
    by_cases hc : c = h
    · subst hc; simp
    · rw [show (c == h) = false from beq_eq_false_iff_ne.mpr hc]
      simp [hc, ih]

theorem mem_insertSorted (s x : String) (l : List String) :
    x ∈ insertSorted s l ↔ x = s ∨ x ∈ l := by
  induction l with
  | nil => simp [insertSorted]
  | cons t ts ih =>
    unfold insertSorted
    by_cases h : (compare s t).isLE
    · simp [h]
    · simp [h, ih]
      tauto

theorem mem_sortStrings (x : String) (l : List String) :
    x ∈ sortStrings l ↔ x ∈ l := by
  induction l with
  | nil => simp [sortStrings]
  | cons s ss ih => simp [sortStrings, mem_insertSorted, ih]

theorem groupbySum_keys (pairs : List (String × Int)) :
    (groupbySum pairs).map Prod.fst = sortStrings (pairs.map Prod.fst).dedup := by
  unfold groupbySum
  rw [List.map_map]
  exact List.map_id _

theorem mem_groupbySum_keys (pairs : List (String × Int)) (u : String) :
    u ∈ (groupbySum pairs).map Prod.fst ↔ u ∈ pairs.map Prod.fst := by
  rw [groupbySum_keys, mem_sortStrings, List.mem_dedup]

theorem groupbySum_val (pairs : List (String × Int)) (p : String × Int)
    (hp : p ∈ groupbySum pairs) :
    p.2 = ((pairs.filter fun q => q.1 == p.1).map Prod.snd).sum := by
  unfold groupbySum at hp
  rw [List.mem_map] at hp
  obtain ⟨k, hk, hpk⟩ := hp
  rw [← hpk]

theorem lookup_groupbySum (pairs : List (String × Int)) (c : String) :
    List.lookup c (groupbySum pairs) =
      if c ∈ pairs.map Prod.fst then
        some ((pairs.filter fun q => q.1 == c).map Prod.snd).sum
      else none := by
  unfold groupbySum
  rw [lookup_map_self]
  by_cases h : c ∈ List.map Prod.fst pairs
  · rw [if_pos (by rw [mem_sortStrings, List.mem_dedup]; exact h), if_pos h]
  · rw [if_neg (by rw [mem_sortStrings, List.mem_dedup]; exact h), if_neg h]

theorem lookup_groupbySum_getD (pairs : List (String × Int)) (c : String) :
    (List.lookup c (groupbySum pairs)).getD 0 =
      ((pairs.filter fun q => q.1 == c).map Prod.snd).sum := by
  rw [lookup_groupbySum]
  by_cases h : c ∈ pairs.map Prod.fst
  · simp [h]
  · have hnil : (pairs.filter fun q => q.1 == c) = [] := by
      rw [List.filter_eq_nil_iff]
      intro q hq hqc
      exact h (List.mem_map.mpr ⟨q, hq, by simpa using hqc⟩)
    simp [h, hnil]

/-- C5 (counterexample): a raw row whose timestamp fails to parse is dropped
by preprocessing even though its amount and purchase date are valid — the
coerced frame built from that single row is empty. -/
theorem timestampless_row_dropped :
    preprocessExpenses
      [⟨none, "Josephine", some ⟨2024, 3, 10⟩, "coffee", some 30, "Food & Drink", "Cash"⟩] =
      [] := by
  decide

/-- C5 (amended): an unparseable timestamp does cause the row to be dropped —
a row contributes nothing to the coerced frame when its timestamp is `none`,
and a row is retained by the coercion exactly when its amount, purchase date
and timestamp all parse. -/
theorem expense_retention_requires_timestamp (r : ExpenseRaw) (rows : List ExpenseRaw) :
    (r.timestamp = none → preprocessExpenses (r :: rows) = preprocessExpenses rows) ∧
    ((coerceExpense r).isSome ↔
      r.amount.isSome ∧ r.purchase_date.isSome ∧ r.timestamp.isSome) := by
  constructor
  · intro ht
    unfold preprocessExpenses
    rw [List.filterMap_cons]
    cases ha : r.amount <;> cases hd : r.purchase_date <;> simp [coerceExpense, ha, hd, ht]
  · unfold coerceExpense
    cases ha : r.amount <;> cases hd : r.purchase_date <;> cases ht : r.timestamp <;>
      simp [ha, hd, ht]

/-- Witness for C5: the amended theorem applied to a concrete row with a
valid amount and purchase date but no parseable timestamp. -/
theorem expense_retention_requires_timestamp_witness :
    preprocessExpenses
      [⟨none, "Mikael", some ⟨2024, 3, 12⟩, "tea", some 15, "Food & Drink", "Cash"⟩] =
      [] :=
  ((expense_retention_requires_timestamp
      ⟨none, "Mikael", some ⟨2024, 3, 12⟩, "tea", some 15, "Food & Drink", "Cash"⟩ []).1
    rfl).trans rfl

/-- C6 (counterexample): the Recent Transactions view is `tail(25)` in store
read order: permuting the store changes the output, and with the older
timestamp stored first the view lists it first — not timestamp-descending. -/
theorem recentTransactions_depend_on_read_order :
    recentTransactions
        [⟨100, "Mikael", ⟨2024, 3, 1⟩, "old", 10, "Bills", "CC"⟩,
         ⟨200, "Mikael", ⟨2024, 3, 2⟩, "new", 20, "Bills", "CC"⟩] ≠
      recentTransactions
        [⟨200, "Mikael", ⟨2024, 3, 2⟩, "new", 20, "Bills", "CC"⟩,
         ⟨100, "Mikael", ⟨2024, 3, 1⟩, "old", 10, "Bills", "CC"⟩] ∧
    recentTransactions
        [⟨100, "Mikael", ⟨2024, 3, 1⟩, "old", 10, "Bills", "CC"⟩,
         ⟨200, "Mikael", ⟨2024, 3, 2⟩, "new", 20, "Bills", "CC"⟩] =
      [⟨"Mikael", ⟨2024, 3, 1⟩, "old", 10, "Bills", "CC"⟩,
       ⟨"Mikael", ⟨2024, 3, 2⟩, "new", 20, "Bills", "CC"⟩] := by
  decide

/-- C6 (amended): the Recent Transactions view returns the last
`min 25 n` coerced rows in the store's read order with the timestamp column
dropped — a suffix of the read-ordered frame, with no recency sort. -/
theorem recentTransactions_tail25 (rows : List ExpenseRow) :
    recentTransactions rows = (rows.map stripTimestamp).drop (rows.length - 25) ∧
    (recentTransactions rows).length = min 25 rows.length ∧
    recentTransactions rows <:+ rows.map stripTimestamp := by
  have h1 : recentTransactions rows = (rows.map stripTimestamp).drop (rows.length - 25) := by
    unfold recentTransactions
    rw [List.map_drop]
  refine ⟨h1, ?_, ?_⟩
  · rw [h1, List.length_drop, List.length_map]
    omega
  · rw [h1]
    exact List.drop_suffix _ _

/-- C7 (counterexample): an income submission with an empty description and a
positive amount is appended — the income form guard checks only the amount,
so the store is touched. -/
theorem income_submit_accepts_empty_description :
    incomeFormSubmit [] 500 "Mikael" ⟨2024, 3, 15⟩ "Salary" "" 10 =
      [⟨500, "Mikael", ⟨2024, 3, 15⟩, "Salary", "", 10⟩] := by
  decide

/-- C7 (amended): the expense form appends exactly when the description is
non-empty and the amount positive (otherwise the store is untouched), while
the income form appends exactly when the amount is positive — an empty income
description is accepted. -/
theorem form_submission_guards (storeE : List ExpenseEntry) (storeI : List IncomeEntry)
    (now : Nat) (u : String) (d : Date) (item : String) (amount : Int)
    (category mth source description : String) :
    (expenseFormSubmit storeE now u d item amount category mth =
        storeE ++ [⟨now, u, d, item, amount, category, mth⟩] ↔
      item ≠ "" ∧ 0 < amount) ∧
    (expenseFormSubmit storeE now u d item amount category mth = storeE ↔
      ¬(item ≠ "" ∧ 0 < amount)) ∧
    (incomeFormSubmit storeI now u d source description amount =
        storeI ++ [⟨now, u, d, source, description, amount⟩] ↔ 0 < amount) ∧
    (incomeFormSubmit storeI now u d source description amount = storeI ↔ ¬0 < amount) := by
  have hlenE : storeE ≠ storeE ++ [(⟨now, u, d, item, amount, category, mth⟩ : ExpenseEntry)] := by
    intro h
    have := congrArg List.length h
    simp at this
  have hlenI : storeI ≠ storeI ++ [(⟨now, u, d, source, description, amount⟩ : IncomeEntry)] := by
    intro h
    have := congrArg List.length h
    simp at this
  by_cases hg : item ≠ "" ∧ 0 < amount <;> by_cases ha : 0 < amount <;>
    simp_all [expenseFormSubmit, incomeFormSubmit]

/-- C8 (counterexample): the user-sum table is not completed against the
canonical user set — with only Mikael rows in the period, the output is the
single-row table for Mikael and Josephine does not appear. -/
theorem userSpending_no_canonical_completion :
    userSpendingReport [⟨100, "Mikael", ⟨2024, 3, 1⟩, "gas", 10, "Transport", "CC"⟩] =
      some [("Mikael", 10)] ∧
    "Josephine" ∉ ([("Mikael", (10 : Int))].map Prod.fst) := by
  decide

/-- C8 (amended): for a non-empty period slice the user-sum table contains
exactly the users that actually appear among the period-filtered rows — each
with the sum of their amounts — and no zero-filled canonical users. -/
theorem userSpendingReport_users_present (rows : List ExpenseRow) (hne : rows ≠ [])
    (t : List (String × Int)) (ht : userSpendingReport rows = some t) :
    (∀ u, u ∈ t.map Prod.fst ↔ u ∈ rows.map (fun r => r.user)) ∧
    (∀ p ∈ t, p.2 = ((rows.filter fun r => r.user == p.1).map (fun r => r.amount)).sum) := by
  have hrows : ¬rows.isEmpty = true := by simp [List.isEmpty_iff, hne]
  unfold userSpendingReport at ht
  rw [if_neg hrows] at ht
  have htt : t = groupbySum (rows.map fun r => (r.user, r.amount)) :=
    (Option.some_injective _ ht).symm
  subst htt
  constructor
  · intro u
    rw [mem_groupbySum_keys, List.map_map]
    rfl
  · intro p hp
    rw [groupbySum_val _ p hp, List.filter_map, List.map_map]
    rfl

/-- Witness for C8 with a concrete two-row period slice: the user column of
the produced table lists exactly the users present in the rows. -/
theorem userSpendingReport_users_present_witness :
    "Mikael" ∈ ([("Josephine", (20 : Int)), ("Mikael", 10)].map Prod.fst) ↔
      "Mikael" ∈ ([⟨1, "Mikael", ⟨2024, 3, 1⟩, "a", 10, "Bills", "CC"⟩,
          ⟨2, "Josephine", ⟨2024, 3, 2⟩, "b", 20, "Food & Drink", "CC"⟩] :
            List ExpenseRow).map (fun r => r.user) :=
  (userSpendingReport_users_present
      [⟨1, "Mikael", ⟨2024, 3, 1⟩, "a", 10, "Bills", "CC"⟩,
       ⟨2, "Josephine", ⟨2024, 3, 2⟩, "b", 20, "Food & Drink", "CC"⟩]
      (by decide)
      [("Josephine", (20 : Int)), ("Mikael", 10)]
      (by decide)).1 "Mikael"

theorem filter_pairs_eq (rows : List ExpenseRow) (c : String) (hc : c ∈ target_categories) :
    (((rows.filter fun r => target_categories.contains r.category).map
        fun r => (r.category, r.amount)).filter fun q => q.1 == c) =
      (rows.filter fun r => r.category == c).map fun r => (r.category, r.amount) := by
  rw [List.filter_map, List.filter_filter]
  congr 1
  apply List.filter_congr
  intro r _
  simp only [Function.comp]
  by_cases hrc : r.category = c
  · have hcont : target_categories.contains r.category = true := by
      rw [hrc]
      simp [hc]
    rw [hcont, Bool.and_true]
  · have hbeq : (r.category == c) = false := beq_eq_false_iff_ne.mpr hrc
    rw [hbeq, Bool.false_and]

/-- C3 (counterexample): with an empty period slice — in particular for the
empty transaction store — the category-aggregation report is skipped (`none`),
not the all-zeros table the claim requires. -/
theorem categorySpendingReport_empty_is_missing :
    categorySpendingReport [] = none ∧
    categorySpendingReport (expensesPeriod ⟨2024, 3, 15⟩ []) = none ∧
    categorySpendingReport [] ≠ some [("Bills", 0), ("Food & Drink", 0), ("Transport", 0)] := by
  decide

/-- C3 (amended): for every NON-EMPTY period slice, the category report is
produced and contains exactly the canonical category list in order — one row
per canonical category with the sum of the amounts of that category's rows
(0 when absent), and no rows for categories outside the canonical list; when
the period slice is empty the report is skipped entirely (`none`). -/
theorem categorySpendingReport_complete (rows : List ExpenseRow) (hne : rows ≠ []) :
    categorySpendingReport rows =
      some (target_categories.map fun c =>
        (c, ((rows.filter fun r => r.category == c).map fun r => r.amount).sum)) ∧
    ∀ t, categorySpendingReport rows = some t → t.map Prod.fst = target_categories := by
  have hrows : ¬rows.isEmpty = true := by simp [List.isEmpty_iff, hne]
  have hmain : categorySpendingReport rows =
      some (target_categories.map fun c =>
        (c, ((rows.filter fun r => r.category == c).map fun r => r.amount).sum)) := by
    unfold categorySpendingReport
    rw [if_neg hrows]
    dsimp only
    congr 1
    apply List.map_congr_left
    intro c hc
    rw [lookup_groupbySum_getD, filter_pairs_eq rows c hc, List.map_map]
    rfl
  refine ⟨hmain, fun t ht2 => ?_⟩
  have htt : t = target_categories.map fun c =>
      (c, ((rows.filter fun r => r.category == c).map fun r => r.amount).sum) :=
    (Option.some_injective _ (hmain.symm.trans ht2)).symm
  subst htt
  rw [List.map_map]
  exact List.map_id _

/-- Witness for C3 at the spec's own example: expenses Bills 100 and
Food & Drink 50 yield the completed table with Transport zero-filled. -/
theorem categorySpendingReport_complete_witness :
    categorySpendingReport
        [⟨1, "Mikael", ⟨2024, 3, 1⟩, "electricity", 100, "Bills", "CC"⟩,
         ⟨2, "Josephine", ⟨2024, 3, 2⟩, "lunch", 50, "Food & Drink", "Cash"⟩] =
      some [("Bills", 100), ("Food & Drink", 50), ("Transport", 0)] :=
  ((categorySpendingReport_complete
      [⟨1, "Mikael", ⟨2024, 3, 1⟩, "electricity", 100, "Bills", "CC"⟩,
       ⟨2, "Josephine", ⟨2024, 3, 2⟩, "lunch", 50, "Food & Drink", "Cash"⟩]
      (by decide)).1).trans (by decide)

/-- C4: at the failing input (budget 200 for Bills, period spend 250) the
joined frame carries `Remaining = -50`, the chart condition does flag the
category red, but the display table renders the negative remaining as the
string "0" — hiding the over-budget value instead of formatting it
(the source comment promises accounting parentheses for negatives). -/
theorem budget_over_spend_rendered_zero :
    budgetReport [⟨"Bills", 120, 80, some 200⟩]
        [⟨1, "Mikael", ⟨2024, 3, 1⟩, "electricity", 250, "Bills", "CC"⟩] =
      some [⟨"Bills", 120, 80, some 200, 250, some (-50)⟩] ∧
    displayMerged ⟨"Bills", 120, 80, some 200, 250, some (-50)⟩ =
      ["Bills", "120", "80", "200", "250", "0"] ∧
    budgetBarColor ⟨"Bills", 120, 80, some 200, 250, some (-50)⟩ = "red" := by
  decide
